import Mathlib

/-!
Shallow embedding of the SEC filing fact-resolution and statement-assembly
engine (`sec_parser`): the fact index (`FinancialExtractor._index_facts`),
the tag resolver (`FinancialExtractor._find_fact_value`), the statement
assemblers (`extract_income_statement`, `extract_balance_sheet`,
`extract_cash_flow`), the data models (`LineItem`, `FinancialStatement`)
and the presentation surfaces (`LineItem.display_value`,
`FinancialStatement.to_dict`, `FinancialStatement.get_value`, and the
scaling block of `ExcelExporter._write_line_items`).

Modelling conventions:
* Python floats are modelled as rationals (`ℚ`); every arithmetic step the
  claims exercise (negation, division by 1000) is exact.
* A date string is parsed exactly as `_parse_date` does: the first ten
  characters against the `%Y-%m-%d` pattern (including month-length and
  leap-year validation done by `strptime`); parsed dates are represented
  by their day number (`rataDie`), so that subtraction of dates in days
  matches `(a - b).days`.  `strptime`'s leniency for non-zero-padded
  fields is not modelled; no claim exercises it.
* A fact's numeric `val` field is one of: absent (`None` in Python),
  convertible by `float(...)` to a number `q`, or present but raising
  `ValueError`/`TypeError` under `float(...)`.
* Python `dict`s keyed by strings become association lists with the usual
  dict semantics (assignment updates in place, new keys append); `sorted`
  with `reverse=True` becomes a stable descending insertion sort keyed by
  the raw `end` string, as in `_find_fact_value`.
-/

set_option linter.unusedVariables false

namespace SecParser

/-! ## Dates: `FinancialExtractor._parse_date` -/

/-- Leap-year rule used by `datetime.date`. -/
def isLeap (y : Nat) : Bool :=
  (y % 4 == 0 && y % 100 != 0) || y % 400 == 0

/-- Number of days in month `m` of year `y` (Gregorian). -/
def daysInMonth (y m : Nat) : Nat :=
  if m = 2 then (if isLeap y then 29 else 28)
  else if m = 4 ∨ m = 6 ∨ m = 9 ∨ m = 11 then 30
  else 31

/-- Days in year `y` strictly before month `m`. -/
def daysBeforeMonth (y m : Nat) : Nat :=
  (List.range (m - 1)).foldl (fun acc i => acc + daysInMonth y (i + 1)) 0

/-- Day number of the Gregorian date `y-m-d` (day 1 = 0001-01-01), so that
subtracting two day numbers gives the `(a - b).days` of `datetime.date`. -/
def rataDie (y m d : Nat) : Nat :=
  365 * (y - 1) + (y - 1) / 4 + (y - 1) / 400 - (y - 1) / 100
    + daysBeforeMonth y m + d

/-- `|a - b|` in days for two day numbers, as `abs((a - b).days)`. -/
def dayDelta (a b : Nat) : Nat := max a b - min a b

/-- Numeric value of a decimal digit character. -/
def digitVal (c : Char) : Nat := c.toNat - 48

/-- Parse exactly ten characters `YYYY-MM-DD` into a day number, validating
ranges the way `datetime.strptime(s, "%Y-%m-%d")` does.  Returns `none` on
any malformed input. -/
def parseISO10 (cs : List Char) : Option Nat :=
  match cs with
  | [y1, y2, y3, y4, h1, m1, m2, h2, d1, d2] =>
    if y1.isDigit && y2.isDigit && y3.isDigit && y4.isDigit &&
       h1 == '-' && m1.isDigit && m2.isDigit &&
       h2 == '-' && d1.isDigit && d2.isDigit then
      let y := 1000 * digitVal y1 + 100 * digitVal y2 + 10 * digitVal y3 + digitVal y4
      let m := 10 * digitVal m1 + digitVal m2
      let d := 10 * digitVal d1 + digitVal d2
      if 1 ≤ y ∧ 1 ≤ m ∧ m ≤ 12 ∧ 1 ≤ d ∧ d ≤ daysInMonth y m then
        some (rataDie y m d)
      else none
    else none
  | _ => none

/-- `FinancialExtractor._parse_date`: `None`/empty string gives `None`;
otherwise the first ten characters are parsed as `%Y-%m-%d`, with parse
failure absorbed to `None`. -/
def parseDate : Option String → Option Nat
  | none => none
  | some s => if s = "" then none else parseISO10 (s.data.take 10)

/-! ## Facts and the fact index: `FinancialExtractor._index_facts` -/

/-- The `val` field of one raw observation, classified by how Python's
`float(value)` treats it. -/
inductive FactVal where
  | null : FactVal
  | num (q : ℚ) : FactVal
  | bad : FactVal
deriving DecidableEq, Repr

/-- `float(value)` when `value is not None`, absorbing
`ValueError`/`TypeError` to `none` as the `except` clause does. -/
def FactVal.toFloat : FactVal → Option ℚ
  | .num q => some q
  | _ => none

/-- One entry of the per-concept fact list built by `_index_facts`: the
dict with keys `value`, `end`, `start`, `fy`, `fp`, `form`, `filed`,
`accn`, `frame`, `unit`.  Only `value`, `end`, `start` and `form` are read
by the resolver; the rest are carried verbatim. -/
structure Fact where
  value : FactVal
  endDate : Option String
  startDate : Option String
  fy : Option Int
  fp : Option String
  form : Option String
  filed : Option String
  accn : Option String
  frame : Option String
  unit : String
deriving DecidableEq, Repr

/-- One element of a raw unit array in the payload (same fields, prior to
the `unit` key being attached by the indexer). -/
structure RawObs where
  val : FactVal
  endDate : Option String
  startDate : Option String
  fy : Option Int
  fp : Option String
  form : Option String
  filed : Option String
  accn : Option String
deriving DecidableEq, Repr

/-- The dict appended by `_index_facts` for one raw observation of unit
`u`. -/
def mkFact (u : String) (o : RawObs) : Fact :=
  { value := o.val, endDate := o.endDate, startDate := o.startDate,
    fy := o.fy, fp := o.fp, form := o.form, filed := o.filed,
    accn := o.accn, frame := none, unit := u }

/-- A concept's entry in the raw payload: its `units` dict. -/
structure ConceptData where
  units : List (String × List RawObs)
deriving DecidableEq, Repr

/-- The `facts` part of the payload: the `us-gaap` and `dei` namespaces. -/
structure PayloadFacts where
  usGaap : List (String × ConceptData)
  dei : List (String × ConceptData)
deriving DecidableEq, Repr

/-- `self.facts_by_concept`: concept name to list of facts. -/
abbrev FactsByConcept : Type := List (String × List Fact)

/-- Append `fs` to concept `c`'s list, creating the entry (at the end, as
dict insertion does) if absent — the effect of the
`if concept not in self.facts_by_concept: ... = []` plus the append loop
of `_index_facts` for one unit array. -/
def appendFacts : FactsByConcept → String → List Fact → FactsByConcept
  | [], c, fs => [(c, fs)]
  | (c', fs') :: rest, c, fs =>
    if c' = c then (c', fs' ++ fs) :: rest
    else (c', fs') :: appendFacts rest c fs

/-- Index one namespace of the payload, concept by concept, unit by unit,
in payload order. -/
def indexNamespace (fbc : FactsByConcept)
    (ns : List (String × ConceptData)) : FactsByConcept :=
  ns.foldl
    (fun fbc ccd =>
      ccd.2.units.foldl
        (fun fbc uvs => appendFacts fbc ccd.1 (uvs.2.map (mkFact uvs.1)))
        fbc)
    fbc

/-- `FinancialExtractor._index_facts`: process `us-gaap`, then `dei`. -/
def indexFacts (facts : PayloadFacts) : FactsByConcept :=
  indexNamespace (indexNamespace [] facts.usGaap) facts.dei

/-- First-match lookup in `facts_by_concept` (dict lookup; the built index
has unique keys). -/
def fbcLookup (fbc : FactsByConcept) (c : String) : Option (List Fact) :=
  match fbc with
  | [] => none
  | (c', fs) :: rest => if c' = c then some fs else fbcLookup rest c

/-! ## Per-query sort: `sorted(..., key=lambda x: x.get('end','') or '', reverse=True)` -/

/-- The sort key: the raw `end` string, with `None` (and the empty string)
collapsing to `""` by `x.get('end', '') or ''`. -/
def sortKey (f : Fact) : String := f.endDate.getD ""

/-- The descending comparison used by the per-query sort: `a` may precede
`b` when `a`'s key is not smaller. -/
def factGe (a b : Fact) : Prop := ¬ sortKey a < sortKey b

instance : DecidableRel factGe := fun a b =>
  decidable_of_iff (¬ (sortKey a).toList < (sortKey b).toList)
    (not_congr String.lt_iff_toList_lt.symm)

instance : IsTotal Fact factGe :=
  ⟨fun a b => (le_total (sortKey b) (sortKey a)).imp not_lt.mpr not_lt.mpr⟩

instance : IsTrans Fact factGe :=
  ⟨fun _ _ _ hab hbc =>
    not_lt.mpr (le_trans (not_lt.mp hbc) (not_lt.mp hab))⟩

/-- The `sorted_facts` view built per query inside `_find_fact_value`:
a stable descending sort on the raw `end` string, as Python's stable
`sorted(..., key=..., reverse=True)`. -/
def sortFactsDesc (fs : List Fact) : List Fact :=
  List.insertionSort factGe fs

/-! ## The tag resolver: `FinancialExtractor._find_fact_value` -/

/-- The form filter: `if form_type and fact.get('form') != form_type:
continue`.  `formType = none` models the falsy (unspecified) case. -/
def formSkip (formType : Option String) (f : Fact) : Bool :=
  match formType with
  | none => false
  | some ft => f.form ≠ some ft

/-- The start-date filter of lines 150–156: active only when a target
start is supplied and the fact's start parses; then the delta must be
within tolerance. -/
def startSkip (periodStart : Option Nat) (tol : Nat) (f : Fact) : Bool :=
  match periodStart with
  | none => false
  | some ps =>
    match parseDate f.startDate with
    | none => false
    | some fs => decide (tol < dayDelta fs ps)

/-- The inner loop of `_find_fact_value` over one candidate's (already
sorted) fact list: form filter, end-date parse and tolerance, start-date
tolerance, then `float` conversion; every failure `continue`s to the next
fact. -/
def findInFacts (formType : Option String) (periodEnd : Nat)
    (periodStart : Option Nat) (tol : Nat) : List Fact → Option ℚ
  | [] => none
  | f :: rest =>
    if formSkip formType f then
      findInFacts formType periodEnd periodStart tol rest
    else
      match parseDate f.endDate with
      | none => findInFacts formType periodEnd periodStart tol rest
      | some fe =>
        if tol < dayDelta fe periodEnd then
          findInFacts formType periodEnd periodStart tol rest
        else if startSkip periodStart tol f then
          findInFacts formType periodEnd periodStart tol rest
        else
          match f.value.toFloat with
          | some v => some v
          | none => findInFacts formType periodEnd periodStart tol rest

/-- `FinancialExtractor._find_fact_value`: walk the tag candidates in
priority order; skip tags absent from the index; within a tag, search the
per-query sorted fact list; the first hit returns `(value, tag)`.
`fy`/`fp` are accepted and, as in the source, never read. -/
def findFactValue (fbc : FactsByConcept) (tagCandidates : List String)
    (periodEnd : Nat) (periodStart : Option Nat) (fy : Option Int)
    (fp : Option String) (formType : Option String) (tol : Nat := 5) :
    Option ℚ × Option String :=
  match tagCandidates with
  | [] => (none, none)
  | tag :: rest =>
    match fbcLookup fbc tag with
    | none => findFactValue fbc rest periodEnd periodStart fy fp formType tol
    | some facts =>
      match findInFacts formType periodEnd periodStart tol (sortFactsDesc facts) with
      | some v => (some v, some tag)
      | none => findFactValue fbc rest periodEnd periodStart fy fp formType tol

/-! ## Data models: `models.py` -/

/-- `StatementType`. -/
inductive StatementType where
  | incomeStatement
  | balanceSheet
  | cashFlow
deriving DecidableEq, Repr

/-- `LineItem` (dataclass): the resolved value is `Option ℚ` since the
source field is `Optional[float]`. -/
structure LineItem where
  label : String
  xbrlTag : String
  value : Option ℚ
  periodEnd : Nat
  periodStart : Option Nat := none
  decimals : Int := -6
  isNegated : Bool := false
deriving DecidableEq, Repr

/-- `LineItem.display_value`: sign-flip when negated, `None` passes
through. -/
def LineItem.displayValue (it : LineItem) : Option ℚ :=
  match it.value with
  | none => none
  | some v => some (if it.isNegated then -v else v)

/-- `FinancialStatement` (dataclass); `line_items` is the insertion-ordered
dict. -/
structure FinancialStatement where
  statementType : StatementType
  periodEnd : Nat
  fiscalYear : Int
  fiscalPeriod : String
  periodStart : Option Nat := none
  lineItems : List (String × LineItem) := []
deriving DecidableEq, Repr

/-- Python dict assignment on an insertion-ordered dict: update in place if
the key exists, append otherwise. -/
def dictInsert : List (String × LineItem) → String → LineItem →
    List (String × LineItem)
  | [], k, v => [(k, v)]
  | (k', v') :: rest, k, v =>
    if k' = k then (k, v) :: rest else (k', v') :: dictInsert rest k v

/-- First-match lookup in the line-item dict. -/
def liLookup : List (String × LineItem) → String → Option LineItem
  | [], _ => none
  | (k', v') :: rest, k => if k' = k then some v' else liLookup rest k

/-- `FinancialStatement.add_line_item`. -/
def FinancialStatement.addLineItem (s : FinancialStatement) (key : String)
    (item : LineItem) : FinancialStatement :=
  { s with lineItems := dictInsert s.lineItems key item }

/-- `FinancialStatement.get_value`: the raw `item.value`, or `None` when
the key is absent. -/
def FinancialStatement.getValue (s : FinancialStatement) (key : String) :
    Option ℚ :=
  match liLookup s.lineItems key with
  | some item => item.value
  | none => none

/-- `FinancialStatement.to_dict`: key to `display_value`, in insertion
order. -/
def FinancialStatement.toDict (s : FinancialStatement) :
    List (String × Option ℚ) :=
  s.lineItems.map (fun kv => (kv.1, kv.2.displayValue))

/-! ## Static mapping tables: `mappings.py` -/

/-- `INCOME_STATEMENT_TAGS`. -/
def INCOME_STATEMENT_TAGS : List (String × List String) :=
  [("revenue",
    ["RevenueFromContractWithCustomerExcludingAssessedTax", "Revenues",
     "SalesRevenueNet", "SalesRevenueGoodsNet",
     "RevenueFromContractWithCustomerIncludingAssessedTax"]),
   ("cost_of_revenue",
    ["CostOfGoodsAndServicesSold", "CostOfRevenue", "CostOfGoodsSold",
     "CostOfServices"]),
   ("gross_profit", ["GrossProfit"]),
   ("research_and_development",
    ["ResearchAndDevelopmentExpense",
     "ResearchAndDevelopmentExpenseExcludingAcquiredInProcessCost"]),
   ("selling_general_admin",
    ["SellingGeneralAndAdministrativeExpense", "SellingAndMarketingExpense",
     "GeneralAndAdministrativeExpense"]),
   ("operating_expenses", ["OperatingExpenses", "CostsAndExpenses"]),
   ("operating_income", ["OperatingIncomeLoss"]),
   ("interest_expense", ["InterestExpense", "InterestExpenseDebt"]),
   ("interest_income",
    ["InterestAndDividendIncomeOperating", "InvestmentIncomeInterest",
     "InterestIncomeOther"]),
   ("other_income_expense",
    ["OtherNonoperatingIncomeExpense", "NonoperatingIncomeExpense"]),
   ("income_before_tax",
    ["IncomeLossFromContinuingOperationsBeforeIncomeTaxesExtraordinaryItemsNoncontrollingInterest",
     "IncomeLossFromContinuingOperationsBeforeIncomeTaxesMinorityInterestAndIncomeLossFromEquityMethodInvestments"]),
   ("income_tax_expense", ["IncomeTaxExpenseBenefit"]),
   ("net_income",
    ["NetIncomeLoss", "ProfitLoss",
     "NetIncomeLossAvailableToCommonStockholdersBasic"]),
   ("eps_basic", ["EarningsPerShareBasic"]),
   ("eps_diluted", ["EarningsPerShareDiluted"]),
   ("shares_basic", ["WeightedAverageNumberOfSharesOutstandingBasic"]),
   ("shares_diluted", ["WeightedAverageNumberOfDilutedSharesOutstanding"])]

/-- `BALANCE_SHEET_TAGS`. -/
def BALANCE_SHEET_TAGS : List (String × List String) :=
  [("cash_and_equivalents",
    ["CashAndCashEquivalentsAtCarryingValue", "Cash",
     "CashCashEquivalentsRestrictedCashAndRestrictedCashEquivalents"]),
   ("short_term_investments",
    ["ShortTermInvestments", "MarketableSecuritiesCurrent",
     "AvailableForSaleSecuritiesDebtSecuritiesCurrent"]),
   ("accounts_receivable",
    ["AccountsReceivableNetCurrent", "ReceivablesNetCurrent"]),
   ("inventory", ["InventoryNet", "InventoryFinishedGoodsAndWorkInProcess"]),
   ("prepaid_expenses",
    ["PrepaidExpenseAndOtherAssetsCurrent", "PrepaidExpenseCurrent"]),
   ("total_current_assets", ["AssetsCurrent"]),
   ("property_plant_equipment", ["PropertyPlantAndEquipmentNet"]),
   ("goodwill", ["Goodwill"]),
   ("intangible_assets",
    ["IntangibleAssetsNetExcludingGoodwill", "FiniteLivedIntangibleAssetsNet"]),
   ("long_term_investments",
    ["LongTermInvestments", "MarketableSecuritiesNoncurrent"]),
   ("other_assets", ["OtherAssetsNoncurrent"]),
   ("total_assets", ["Assets"]),
   ("accounts_payable", ["AccountsPayableCurrent"]),
   ("accrued_liabilities",
    ["AccruedLiabilitiesCurrent", "EmployeeRelatedLiabilitiesCurrent"]),
   ("deferred_revenue_current",
    ["DeferredRevenueCurrent", "ContractWithCustomerLiabilityCurrent"]),
   ("short_term_debt", ["ShortTermBorrowings", "DebtCurrent"]),
   ("current_portion_long_term_debt", ["LongTermDebtCurrent"]),
   ("total_current_liabilities", ["LiabilitiesCurrent"]),
   ("long_term_debt", ["LongTermDebtNoncurrent", "LongTermDebt"]),
   ("deferred_tax_liabilities", ["DeferredIncomeTaxLiabilitiesNet"]),
   ("other_liabilities", ["OtherLiabilitiesNoncurrent"]),
   ("total_liabilities", ["Liabilities"]),
   ("common_stock",
    ["CommonStockValue", "CommonStocksIncludingAdditionalPaidInCapital"]),
   ("additional_paid_in_capital",
    ["AdditionalPaidInCapitalCommonStock", "AdditionalPaidInCapital"]),
   ("retained_earnings", ["RetainedEarningsAccumulatedDeficit"]),
   ("accumulated_other_comprehensive_income",
    ["AccumulatedOtherComprehensiveIncomeLossNetOfTax"]),
   ("treasury_stock", ["TreasuryStockValue"]),
   ("total_stockholders_equity",
    ["StockholdersEquity",
     "StockholdersEquityIncludingPortionAttributableToNoncontrollingInterest"]),
   ("total_liabilities_and_equity", ["LiabilitiesAndStockholdersEquity"])]

/-- `CASH_FLOW_TAGS`. -/
def CASH_FLOW_TAGS : List (String × List String) :=
  [("net_income_cf", ["NetIncomeLoss", "ProfitLoss"]),
   ("depreciation_amortization",
    ["DepreciationDepletionAndAmortization", "DepreciationAndAmortization"]),
   ("stock_based_compensation",
    ["ShareBasedCompensation", "AllocatedShareBasedCompensationExpense"]),
   ("deferred_income_taxes", ["DeferredIncomeTaxExpenseBenefit"]),
   ("change_in_receivables", ["IncreaseDecreaseInAccountsReceivable"]),
   ("change_in_inventory", ["IncreaseDecreaseInInventories"]),
   ("change_in_payables", ["IncreaseDecreaseInAccountsPayable"]),
   ("other_operating_activities", ["OtherOperatingActivitiesCashFlowStatement"]),
   ("net_cash_from_operating", ["NetCashProvidedByUsedInOperatingActivities"]),
   ("capital_expenditures",
    ["PaymentsToAcquirePropertyPlantAndEquipment",
     "PaymentsToAcquireProductiveAssets"]),
   ("acquisitions", ["PaymentsToAcquireBusinessesNetOfCashAcquired"]),
   ("purchases_of_investments",
    ["PaymentsToAcquireInvestments",
     "PaymentsToAcquireAvailableForSaleSecuritiesDebt"]),
   ("sales_of_investments",
    ["ProceedsFromSaleOfAvailableForSaleSecuritiesDebt",
     "ProceedsFromSaleAndMaturityOfMarketableSecurities"]),
   ("net_cash_from_investing", ["NetCashProvidedByUsedInInvestingActivities"]),
   ("debt_repayment", ["RepaymentsOfLongTermDebt", "RepaymentsOfDebt"]),
   ("debt_issuance",
    ["ProceedsFromIssuanceOfLongTermDebt",
     "ProceedsFromDebtNetOfIssuanceCosts"]),
   ("share_repurchases", ["PaymentsForRepurchaseOfCommonStock"]),
   ("dividends_paid",
    ["PaymentsOfDividendsCommonStock", "PaymentsOfDividends"]),
   ("stock_issuance",
    ["ProceedsFromIssuanceOfCommonStock", "ProceedsFromStockOptionsExercised"]),
   ("net_cash_from_financing", ["NetCashProvidedByUsedInFinancingActivities"]),
   ("effect_of_exchange_rate",
    ["EffectOfExchangeRateOnCashCashEquivalentsRestrictedCashAndRestrictedCashEquivalents",
     "EffectOfExchangeRateOnCashAndCashEquivalents"]),
   ("net_change_in_cash",
    ["CashCashEquivalentsRestrictedCashAndRestrictedCashEquivalentsPeriodIncreaseDecreaseIncludingExchangeRateEffect",
     "CashAndCashEquivalentsPeriodIncreaseDecrease"])]

/-- `NEGATED_ITEMS` (a `set` in the source; membership is all that is
used). -/
def NEGATED_ITEMS : List String :=
  ["cost_of_revenue", "research_and_development", "selling_general_admin",
   "operating_expenses", "interest_expense", "income_tax_expense",
   "capital_expenditures", "acquisitions", "purchases_of_investments",
   "debt_repayment", "share_repurchases", "dividends_paid", "treasury_stock"]

/-- `LABELS` (only entries a claim's concrete inputs touch are consulted,
but the full table is embedded). -/
def LABELS : List (String × String) :=
  [("revenue", "Revenue"), ("cost_of_revenue", "Cost of Revenue"),
   ("gross_profit", "Gross Profit"),
   ("research_and_development", "Research & Development"),
   ("selling_general_admin", "Selling, General & Administrative"),
   ("operating_expenses", "Operating Expenses"),
   ("operating_income", "Operating Income"),
   ("interest_expense", "Interest Expense"),
   ("interest_income", "Interest Income"),
   ("other_income_expense", "Other Income (Expense)"),
   ("income_before_tax", "Income Before Tax"),
   ("income_tax_expense", "Income Tax Expense"),
   ("net_income", "Net Income"), ("eps_basic", "EPS (Basic)"),
   ("eps_diluted", "EPS (Diluted)"),
   ("shares_basic", "Shares Outstanding (Basic)"),
   ("shares_diluted", "Shares Outstanding (Diluted)"),
   ("cash_and_equivalents", "Cash & Cash Equivalents"),
   ("short_term_investments", "Short-Term Investments"),
   ("accounts_receivable", "Accounts Receivable"),
   ("inventory", "Inventory"), ("prepaid_expenses", "Prepaid Expenses"),
   ("total_current_assets", "Total Current Assets"),
   ("property_plant_equipment", "Property, Plant & Equipment"),
   ("goodwill", "Goodwill"), ("intangible_assets", "Intangible Assets"),
   ("long_term_investments", "Long-Term Investments"),
   ("other_assets", "Other Assets"), ("total_assets", "Total Assets"),
   ("accounts_payable", "Accounts Payable"),
   ("accrued_liabilities", "Accrued Liabilities"),
   ("deferred_revenue_current", "Deferred Revenue (Current)"),
   ("short_term_debt", "Short-Term Debt"),
   ("current_portion_long_term_debt", "Current Portion of Long-Term Debt"),
   ("total_current_liabilities", "Total Current Liabilities"),
   ("long_term_debt", "Long-Term Debt"),
   ("deferred_tax_liabilities", "Deferred Tax Liabilities"),
   ("other_liabilities", "Other Liabilities"),
   ("total_liabilities", "Total Liabilities"),
   ("common_stock", "Common Stock"),
   ("additional_paid_in_capital", "Additional Paid-In Capital"),
   ("retained_earnings", "Retained Earnings"),
   ("accumulated_other_comprehensive_income",
    "Accumulated Other Comprehensive Income"),
   ("treasury_stock", "Treasury Stock"),
   ("total_stockholders_equity", "Total Stockholders' Equity"),
   ("total_liabilities_and_equity", "Total Liabilities & Equity"),
   ("net_income_cf", "Net Income"),
   ("depreciation_amortization", "Depreciation & Amortization"),
   ("stock_based_compensation", "Stock-Based Compensation"),
   ("deferred_income_taxes", "Deferred Income Taxes"),
   ("change_in_receivables", "Change in Receivables"),
   ("change_in_inventory", "Change in Inventory"),
   ("change_in_payables", "Change in Payables"),
   ("other_operating_activities", "Other Operating Activities"),
   ("net_cash_from_operating", "Net Cash from Operating Activities"),
   ("capital_expenditures", "Capital Expenditures"),
   ("acquisitions", "Acquisitions"),
   ("purchases_of_investments", "Purchases of Investments"),
   ("sales_of_investments", "Sales of Investments"),
   ("net_cash_from_investing", "Net Cash from Investing Activities"),
   ("debt_repayment", "Debt Repayment"), ("debt_issuance", "Debt Issuance"),
   ("share_repurchases", "Share Repurchases"),
   ("dividends_paid", "Dividends Paid"), ("stock_issuance", "Stock Issuance"),
   ("net_cash_from_financing", "Net Cash from Financing Activities"),
   ("effect_of_exchange_rate", "Effect of Exchange Rate"),
   ("net_change_in_cash", "Net Change in Cash")]

/-- First-match lookup in a string-keyed association table. -/
def tblLookup : List (String × String) → String → Option String
  | [], _ => none
  | (k', v') :: rest, k => if k' = k then some v' else tblLookup rest k

/-! ## Statement assemblers: `extract_income_statement`,
`extract_balance_sheet`, `extract_cash_flow` -/

/-- The shared body of the three `extract_*` methods: for each key, call
the resolver; on a found value, build the `LineItem` (label from `LABELS`
with the key as fallback, tag `matched_tag or ""`, negation flag from
`NEGATED_ITEMS` membership) and insert it; otherwise leave the key absent.
The three source methods differ only in the statement type, the tag table
and whether a period start is passed. -/
def extractStatementCore (fbc : FactsByConcept) (stype : StatementType)
    (table : List (String × List String)) (periodEnd : Nat)
    (periodStart : Option Nat) (fiscalYear : Int) (fiscalPeriod : String)
    (formType : String) : FinancialStatement :=
  table.foldl
    (fun st keyCands =>
      match findFactValue fbc keyCands.2 periodEnd periodStart
          (some fiscalYear) (some fiscalPeriod) (some formType) 5 with
      | (some v, matchedTag) =>
        st.addLineItem keyCands.1
          { label := (tblLookup LABELS keyCands.1).getD keyCands.1,
            xbrlTag := matchedTag.getD "",
            value := some v,
            periodEnd := periodEnd,
            periodStart := periodStart,
            isNegated := NEGATED_ITEMS.contains keyCands.1 }
      | (none, _) => st)
    { statementType := stype, periodEnd := periodEnd,
      fiscalYear := fiscalYear, fiscalPeriod := fiscalPeriod,
      periodStart := periodStart, lineItems := [] }

/-- `FinancialExtractor.extract_income_statement`. -/
def extractIncomeStatement (fbc : FactsByConcept) (periodEnd : Nat)
    (periodStart : Nat) (fiscalYear : Int) (fiscalPeriod : String)
    (formType : String := "10-K") : FinancialStatement :=
  extractStatementCore fbc .incomeStatement INCOME_STATEMENT_TAGS periodEnd
    (some periodStart) fiscalYear fiscalPeriod formType

/-- `FinancialExtractor.extract_balance_sheet` (instant: no period
start). -/
def extractBalanceSheet (fbc : FactsByConcept) (periodEnd : Nat)
    (fiscalYear : Int) (fiscalPeriod : String)
    (formType : String := "10-K") : FinancialStatement :=
  extractStatementCore fbc .balanceSheet BALANCE_SHEET_TAGS periodEnd
    none fiscalYear fiscalPeriod formType

/-- `FinancialExtractor.extract_cash_flow`. -/
def extractCashFlow (fbc : FactsByConcept) (periodEnd : Nat)
    (periodStart : Nat) (fiscalYear : Int) (fiscalPeriod : String)
    (formType : String := "10-K") : FinancialStatement :=
  extractStatementCore fbc .cashFlow CASH_FLOW_TAGS periodEnd
    (some periodStart) fiscalYear fiscalPeriod formType

/-! ## Export surface: the scaling block of `ExcelExporter._write_line_items` -/

/-- ASCII lowercase of one character (the keys `key.lower()` is applied to
are ASCII identifiers). -/
def lowerChar (c : Char) : Char :=
  if c.isUpper then Char.ofNat (c.toNat + 32) else c

/-- Python's `str.lower()` restricted to ASCII. -/
def strToLower (s : String) : String := ⟨s.data.map lowerChar⟩

/-- Python's `needle in hay` on strings. -/
def strContains (hay needle : String) : Bool :=
  (List.range (hay.data.length + 1)).any
    (fun i => needle.data.isPrefixOf (hay.data.drop i))

/-- The numeric value `_write_line_items` puts in the cell for `key`:
guarded on `item.value is not None` and `display_value is not None`, then
EPS keys are left unscaled and every other key (shares included) is
divided by 1000. -/
def exportScaledValue (key : String) (item : LineItem) : Option ℚ :=
  match item.value with
  | none => none
  | some _ =>
    match item.displayValue with
    | none => none
    | some dv =>
      if strContains (strToLower key) "eps" then some dv
      else if strContains (strToLower key) "shares" then some (dv / 1000)
      else some (dv / 1000)

/-! ## Derived notions and helper lemmas -/

/-- The end-date filter in isolation: the `end` field parses and its
distance to the target is within tolerance. -/
def passesEnd (periodEnd tol : Nat) (f : Fact) : Bool :=
  match parseDate f.endDate with
  | none => false
  | some fe => decide (dayDelta fe periodEnd ≤ tol)

/-- A fact passes every active filter of the inner loop of
`_find_fact_value` and its value converts: exactly the facts the loop can
return. -/
def acceptableFact (formType : Option String) (periodEnd : Nat)
    (periodStart : Option Nat) (tol : Nat) (f : Fact) : Bool :=
  !formSkip formType f && passesEnd periodEnd tol f &&
    !startSkip periodStart tol f && f.value.toFloat.isSome

/-- A tag resolves iff it is present in the index and one of its facts is
acceptable. -/
def tagHasMatch (fbc : FactsByConcept) (formType : Option String)
    (periodEnd : Nat) (periodStart : Option Nat) (tol : Nat)
    (tag : String) : Bool :=
  match fbcLookup fbc tag with
  | none => false
  | some facts => facts.any (acceptableFact formType periodEnd periodStart tol)

theorem findInFacts_cons (ft : Option String) (pe : Nat) (ps : Option Nat)
    (tol : Nat) (f : Fact) (rest : List Fact) :
    findInFacts ft pe ps tol (f :: rest) =
      if acceptableFact ft pe ps tol f then f.value.toFloat
      else findInFacts ft pe ps tol rest := by
  simp only [findInFacts]
  by_cases h1 : formSkip ft f
  · simp [h1, acceptableFact]
  · cases hp : parseDate f.endDate with
    | none => simp [h1, hp, acceptableFact, passesEnd]
    | some fe =>
      by_cases h2 : tol < dayDelta fe pe
      · simp [h1, hp, h2, acceptableFact, passesEnd, Nat.not_le.mpr h2]
      · by_cases h3 : startSkip ps tol f
        · simp [h1, hp, h2, h3, acceptableFact, passesEnd]
        · cases hv : f.value.toFloat with
          | none =>
            simp [h1, hp, h2, h3, hv, acceptableFact, passesEnd,
              Nat.not_lt.mp h2]
          | some v =>
            simp [h1, hp, h2, h3, hv, acceptableFact, passesEnd,
              Nat.not_lt.mp h2]

theorem findInFacts_skip {ft : Option String} {pe : Nat} {ps : Option Nat}
    {tol : Nat} {f : Fact} (h : acceptableFact ft pe ps tol f = false)
    (rest : List Fact) :
    findInFacts ft pe ps tol (f :: rest) = findInFacts ft pe ps tol rest := by
  rw [findInFacts_cons, if_neg (by simp [h])]

theorem findInFacts_hit {ft : Option String} {pe : Nat} {ps : Option Nat}
    {tol : Nat} {f : Fact} (h : acceptableFact ft pe ps tol f = true)
    (rest : List Fact) :
    findInFacts ft pe ps tol (f :: rest) = f.value.toFloat := by
  rw [findInFacts_cons, if_pos h]

theorem findInFacts_append_skip {ft : Option String} {pe : Nat}
    {ps : Option Nat} {tol : Nat} {m : Fact}
    (h : acceptableFact ft pe ps tol m = false) :
    ∀ l₁ l₂ : List Fact,
      findInFacts ft pe ps tol (l₁ ++ m :: l₂) =
        findInFacts ft pe ps tol (l₁ ++ l₂)
  | [], l₂ => findInFacts_skip h l₂
  | a :: l₁, l₂ => by
    rw [List.cons_append, List.cons_append, findInFacts_cons,
      findInFacts_cons, findInFacts_append_skip h l₁ l₂]

theorem findInFacts_isSome_eq_any (ft : Option String) (pe : Nat)
    (ps : Option Nat) (tol : Nat) :
    ∀ l : List Fact,
      (findInFacts ft pe ps tol l).isSome =
        l.any (acceptableFact ft pe ps tol)
  | [] => rfl
  | f :: rest => by
    rw [findInFacts_cons, List.any_cons]
    cases h : acceptableFact ft pe ps tol f with
    | false => simp [h, findInFacts_isSome_eq_any ft pe ps tol rest]
    | true =>
      have hv : f.value.toFloat.isSome = true := by
        simp only [acceptableFact, Bool.and_eq_true] at h
        exact h.2
      simp [h, hv]

theorem any_eq_of_perm {l₁ l₂ : List Fact} (h : l₁.Perm l₂)
    (p : Fact → Bool) : l₁.any p = l₂.any p := by
  rw [Bool.eq_iff_iff]
  simp only [List.any_eq_true]
  exact ⟨fun ⟨x, hx, hp⟩ => ⟨x, h.mem_iff.mp hx, hp⟩,
    fun ⟨x, hx, hp⟩ => ⟨x, h.mem_iff.mpr hx, hp⟩⟩

theorem sortFactsDesc_perm (fs : List Fact) : (sortFactsDesc fs).Perm fs :=
  List.perm_insertionSort factGe fs

theorem sortFactsDesc_sorted (fs : List Fact) :
    List.Sorted factGe (sortFactsDesc fs) :=
  List.sorted_insertionSort factGe fs

theorem findInFacts_sort_isSome (ft : Option String) (pe : Nat)
    (ps : Option Nat) (tol : Nat) (fs : List Fact) :
    (findInFacts ft pe ps tol (sortFactsDesc fs)).isSome =
      fs.any (acceptableFact ft pe ps tol) := by
  rw [findInFacts_isSome_eq_any,
    any_eq_of_perm (sortFactsDesc_perm fs)]

/-- Inserting a non-acceptable fact anywhere into the per-query ordered
insert leaves the inner search unchanged. -/
theorem findInFacts_orderedInsert_skip {ft : Option String} {pe : Nat}
    {ps : Option Nat} {tol : Nat} {m : Fact}
    (h : acceptableFact ft pe ps tol m = false) (l : List Fact) :
    findInFacts ft pe ps tol (List.orderedInsert factGe m l) =
      findInFacts ft pe ps tol l := by
  rw [List.orderedInsert_eq_take_drop, findInFacts_append_skip h,
    List.takeWhile_append_dropWhile]

/-- Full characterization of `_find_fact_value`: the first candidate tag
(in priority order) having any acceptable fact wins, and the returned
value is the inner search over that tag's per-query sorted list. -/
theorem findFactValue_characterization (fbc : FactsByConcept)
    (pe : Nat) (ps : Option Nat) (fy : Option Int) (fp : Option String)
    (ft : Option String) (tol : Nat) :
    ∀ tags : List String,
      findFactValue fbc tags pe ps fy fp ft tol =
        match tags.find? (tagHasMatch fbc ft pe ps tol) with
        | none => (none, none)
        | some tag =>
          (findInFacts ft pe ps tol
            (sortFactsDesc ((fbcLookup fbc tag).getD [])), some tag)
  | [] => rfl
  | tag :: rest => by
    rw [findFactValue]
    cases hl : fbcLookup fbc tag with
    | none =>
      have hm : tagHasMatch fbc ft pe ps tol tag = false := by
        simp [tagHasMatch, hl]
      rw [List.find?_cons_of_neg _ (by simp [hm])]
      exact findFactValue_characterization fbc pe ps fy fp ft tol rest
    | some facts =>
      dsimp only
      cases hres : findInFacts ft pe ps tol (sortFactsDesc facts) with
      | some v =>
        have hm : tagHasMatch fbc ft pe ps tol tag = true := by
          simp only [tagHasMatch, hl]
          rw [← findInFacts_sort_isSome ft pe ps tol facts, hres]
          rfl
        rw [List.find?_cons_of_pos _ hm]
        simp [hl, hres]
      | none =>
        have hm : tagHasMatch fbc ft pe ps tol tag = false := by
          simp only [tagHasMatch, hl]
          rw [← findInFacts_sort_isSome ft pe ps tol facts, hres]
          rfl
        rw [List.find?_cons_of_neg _ (by simp [hm])]
        exact findFactValue_characterization fbc pe ps fy fp ft tol rest

/-! ## Dictionary and assembler lemmas -/

theorem liLookup_dictInsert_self (l : List (String × LineItem)) (k : String)
    (v : LineItem) : liLookup (dictInsert l k v) k = some v := by
  induction l with
  | nil => simp [dictInsert, liLookup]
  | cons kv rest ih =>
    by_cases h : kv.1 = k
    · simp [dictInsert, liLookup, h]
    · simp [dictInsert, liLookup, h, ih]

theorem liLookup_dictInsert_ne (l : List (String × LineItem))
    {k' k : String} (h : k' ≠ k) (v : LineItem) :
    liLookup (dictInsert l k' v) k = liLookup l k := by
  induction l with
  | nil => simp [dictInsert, liLookup, h]
  | cons kv rest ih =>
    by_cases hk : kv.1 = k'
    · simp [dictInsert, liLookup, hk, h]
    · by_cases hk2 : kv.1 = k
      · simp [dictInsert, liLookup, hk, hk2, Ne.symm h]
      · simp [dictInsert, liLookup, hk, hk2, ih]

theorem liLookup_dictInsert_cases (l : List (String × LineItem))
    (k' k : String) (v item : LineItem)
    (h : liLookup (dictInsert l k' v) k = some item) :
    item = v ∨ liLookup l k = some item := by
  by_cases hk : k' = k
  · subst hk
    rw [liLookup_dictInsert_self] at h
    exact Or.inl (Option.some.inj h).symm
  · rw [liLookup_dictInsert_ne l hk] at h
    exact Or.inr h

/-- Lookup in the insertion-ordered association list produced by
`to_dict`. -/
def qdLookup : List (String × Option ℚ) → String → Option (Option ℚ)
  | [], _ => none
  | (k', v') :: rest, k => if k' = k then some v' else qdLookup rest k

theorem qdLookup_toDict (s : FinancialStatement) (key : String) :
    qdLookup s.toDict key =
      (liLookup s.lineItems key).map LineItem.displayValue := by
  show qdLookup (s.lineItems.map fun kv => (kv.1, kv.2.displayValue)) key =
    (liLookup s.lineItems key).map LineItem.displayValue
  induction s.lineItems with
  | nil => rfl
  | cons kv rest ih =>
    by_cases h : kv.1 = key
    · simp [qdLookup, liLookup, h]
    · simp [qdLookup, liLookup, h, ih]

/-- The export surface factored through `display_value`: negation first,
then the `/ 1000` scaling on every non-EPS key. -/
theorem exportScaledValue_eq (key : String) (item : LineItem) :
    exportScaledValue key item =
      if strContains (strToLower key) "eps" then item.displayValue
      else item.displayValue.map (fun dv => dv / 1000) := by
  cases hv : item.value with
  | none =>
    have hd : item.displayValue = none := by
      simp [LineItem.displayValue, hv]
    simp [exportScaledValue, hv, hd]
  | some v =>
    have hd : item.displayValue = some (if item.isNegated then -v else v) := by
      simp [LineItem.displayValue, hv]
    by_cases he : strContains (strToLower key) "eps"
    · simp [exportScaledValue, hv, hd, he]
    · by_cases hs : strContains (strToLower key) "shares"
      · simp [exportScaledValue, hv, hd, he, hs]
      · simp [exportScaledValue, hv, hd, he, hs]

/-- `_find_fact_value` on an empty index always fails. -/
theorem findFactValue_nil_fbc (pe : Nat) (ps : Option Nat) (fy : Option Int)
    (fp : Option String) (ft : Option String) (tol : Nat) :
    ∀ tags : List String,
      findFactValue [] tags pe ps fy fp ft tol = (none, none)
  | [] => rfl
  | _ :: rest => findFactValue_nil_fbc pe ps fy fp ft tol rest

/-- Every line item ever present in a statement built by the assembler
fold carries a found value, provided the initial statement does. -/
theorem extractStatementCore_all_values (fbc : FactsByConcept)
    (pe : Nat) (ps : Option Nat) (fy : Int) (fp : String) (ftype : String)
    (stype : StatementType) :
    ∀ (table : List (String × List String)) (key : String),
      ((liLookup (extractStatementCore fbc stype table pe ps fy fp
          ftype).lineItems key).all fun it => it.value.isSome) = true := by
  have main :
      ∀ (table : List (String × List String)) (st₀ : FinancialStatement),
        (∀ k it, liLookup st₀.lineItems k = some it →
          it.value.isSome = true) →
        ∀ k it,
          liLookup (table.foldl
            (fun st keyCands =>
              match findFactValue fbc keyCands.2 pe ps
                  (some fy) (some fp) (some ftype) 5 with
              | (some v, matchedTag) =>
                st.addLineItem keyCands.1
                  { label := (tblLookup LABELS keyCands.1).getD keyCands.1,
                    xbrlTag := matchedTag.getD "",
                    value := some v,
                    periodEnd := pe,
                    periodStart := ps,
                    isNegated := NEGATED_ITEMS.contains keyCands.1 }
              | (none, _) => st) st₀).lineItems k = some it →
          it.value.isSome = true := by
    intro table
    induction table with
    | nil => intro st₀ h₀ k it h; exact h₀ k it h
    | cons kc table ih =>
      intro st₀ h₀ k it
      rw [List.foldl_cons]
      refine ih _ ?_ k it
      intro k' it' h'
      cases hfv : findFactValue fbc kc.2 pe ps (some fy) (some fp)
          (some ftype) 5 with
      | mk fst snd =>
        cases fst with
        | none => rw [hfv] at h'; exact h₀ k' it' h'
        | some v =>
          rw [hfv] at h'
          rcases liLookup_dictInsert_cases _ _ _ _ _ h' with rfl | hold
          · rfl
          · exact h₀ k' it' hold
  intro table key
  cases h : liLookup (extractStatementCore fbc stype table pe ps fy fp
      ftype).lineItems key with
  | none => rfl
  | some it =>
    have := main table _ (fun k it h => Option.noConfusion h) key it
      (by exact h)
    simpa [Option.all] using this

/-- If a key's resolution (for every candidate list the table pairs it
with) is empty, the assembler fold leaves the key exactly as the initial
statement has it. -/
theorem extractStatementCore_unresolved_absent (fbc : FactsByConcept)
    (pe : Nat) (ps : Option Nat) (fy : Int) (fp : String) (ftype : String)
    (stype : StatementType) (table : List (String × List String))
    (key : String)
    (hnone : ∀ cands, (key, cands) ∈ table →
      (findFactValue fbc cands pe ps (some fy) (some fp)
        (some ftype) 5).1 = none) :
    liLookup (extractStatementCore fbc stype table pe ps fy fp
      ftype).lineItems key = none := by
  have main :
      ∀ (table : List (String × List String)) (st₀ : FinancialStatement),
        (∀ cands, (key, cands) ∈ table →
          (findFactValue fbc cands pe ps (some fy) (some fp)
            (some ftype) 5).1 = none) →
        liLookup (table.foldl
          (fun st keyCands =>
            match findFactValue fbc keyCands.2 pe ps
                (some fy) (some fp) (some ftype) 5 with
            | (some v, matchedTag) =>
              st.addLineItem keyCands.1
                { label := (tblLookup LABELS keyCands.1).getD keyCands.1,
                  xbrlTag := matchedTag.getD "",
                  value := some v,
                  periodEnd := pe,
                  periodStart := ps,
                  isNegated := NEGATED_ITEMS.contains keyCands.1 }
            | (none, _) => st) st₀).lineItems key =
          liLookup st₀.lineItems key := by
    intro table
    induction table with
    | nil => intro st₀ _; rfl
    | cons kc table ih =>
      intro st₀ h₀
      rw [List.foldl_cons]
      rw [ih _ (fun cands hc => h₀ cands (List.mem_cons_of_mem kc hc))]
      cases hfv : findFactValue fbc kc.2 pe ps (some fy) (some fp)
          (some ftype) 5 with
      | mk fst snd =>
        cases fst with
        | none => rfl
        | some v =>
          by_cases hk : kc.1 = key
          · exfalso
            have := h₀ kc.2 (by
              rw [← hk]
              exact List.mem_cons_self kc table)
            rw [hfv] at this
            exact Option.some_ne_none v this
          · exact liLookup_dictInsert_ne _ hk _
  exact (main table _ hnone).trans (by simp [liLookup])

/-! ## Concrete fixtures used by the claim theorems -/

/-- Raw observation with the inert metadata fields left empty. -/
def mkObs (v : FactVal) (e s form : Option String) : RawObs :=
  { val := v, endDate := e, startDate := s, fy := none, fp := none,
    form := form, filed := none, accn := none }

/-- Target period end 2024-06-30 for the priority scenario. -/
def c1Target : Nat := rataDie 2024 6 30

/-- Candidate `TagA` matches only at target+5 days (the tolerance
boundary); candidate `TagB` matches exactly at the target. -/
def c1Payload : PayloadFacts :=
  { usGaap :=
      [("TagA", ⟨[("USD", [mkObs (.num 111) (some "2024-07-05") none none])]⟩),
       ("TagB", ⟨[("USD", [mkObs (.num 222) (some "2024-06-30") none none])]⟩)],
    dei := [] }

/-- A payload whose single concept's observations arrive in ascending
period-end order. -/
def c2Payload : PayloadFacts :=
  { usGaap :=
      [("ConceptA", ⟨[("USD",
        [mkObs (.num 1) (some "2023-01-01") none none,
         mkObs (.num 2) (some "2024-01-01") none none])]⟩)],
    dei := [] }

/-- The concept's list exactly as `_index_facts` leaves it. -/
def c2IndexList : List Fact :=
  (fbcLookup (indexFacts c2Payload) "ConceptA").getD []

/-- A resolved monetary line item (raw units). -/
def c3Item : LineItem :=
  { label := "Revenue", xbrlTag := "Revenues", value := some 12345000,
    periodEnd := rataDie 2024 9 30 }

/-- A one-item income statement holding `c3Item` under `revenue`. -/
def c3Stmt : FinancialStatement :=
  FinancialStatement.addLineItem
    { statementType := .incomeStatement, periodEnd := rataDie 2024 9 30,
      fiscalYear := 2024, fiscalPeriod := "FY" } "revenue" c3Item

/-- Target period end 2024-06-30 for the tolerance scenario. -/
def c4Target : Nat := rataDie 2024 6 30

/-- One concept with observations at target−4 days and target+6 days. -/
def c4Payload : PayloadFacts :=
  { usGaap :=
      [("TagC", ⟨[("USD",
        [mkObs (.num 44) (some "2024-06-26") none none,
         mkObs (.num 66) (some "2024-07-06") none none])]⟩)],
    dei := [] }

/-- The same concept with only the target+6-days observation. -/
def c4PayloadOnlyFar : PayloadFacts :=
  { usGaap :=
      [("TagC", ⟨[("USD",
        [mkObs (.num 66) (some "2024-07-06") none none])]⟩)],
    dei := [] }

/-- A fact whose start date is far outside tolerance. -/
def c6RejFact : Fact :=
  mkFact "USD" (mkObs (.num 7) (some "2024-06-30") (some "2023-01-01") none)

/-- A fact with no start date at all. -/
def c6AccFact : Fact :=
  mkFact "USD" (mkObs (.num 5) (some "2024-06-30") none none)

/-- A fact whose date string does not parse. -/
def c7BadDateFact : Fact :=
  mkFact "USD" (mkObs (.num 9) (some "not-a-date") none none)

/-- A fact whose value raises under `float(...)`. -/
def c7BadValFact : Fact :=
  mkFact "USD" (mkObs .bad (some "2024-06-30") none none)

/-- A well-formed fact at the target date. -/
def c7GoodFact : Fact :=
  mkFact "USD" (mkObs (.num 42) (some "2024-06-30") none none)

/-- Line items built exactly as the assembler builds them (negation flag
from the static negated-item set). -/
def c8CostItem : LineItem :=
  { label := "Cost of Revenue", xbrlTag := "CostOfGoodsAndServicesSold",
    value := some 500, periodEnd := rataDie 2024 9 30,
    isNegated := NEGATED_ITEMS.contains "cost_of_revenue" }

def c8RevItem : LineItem :=
  { label := "Revenue", xbrlTag := "Revenues", value := some 500,
    periodEnd := rataDie 2024 9 30,
    isNegated := NEGATED_ITEMS.contains "revenue" }

def c8MoneyItem : LineItem :=
  { label := "Revenue", xbrlTag := "Revenues", value := some 12345000,
    periodEnd := rataDie 2024 9 30,
    isNegated := NEGATED_ITEMS.contains "revenue" }

def c8EpsItem : LineItem :=
  { label := "EPS (Basic)", xbrlTag := "EarningsPerShareBasic",
    value := some (321 / 100), periodEnd := rataDie 2024 9 30,
    isNegated := NEGATED_ITEMS.contains "eps_basic" }

def c8SharesItem : LineItem :=
  { label := "Shares Outstanding (Basic)",
    xbrlTag := "WeightedAverageNumberOfSharesOutstandingBasic",
    value := some 1000000, periodEnd := rataDie 2024 9 30,
    isNegated := NEGATED_ITEMS.contains "shares_basic" }

/-- The end-to-end taxonomy of the §8 scenario: two `NetIncomeLoss`
10-K observations. -/
def c9Payload : PayloadFacts :=
  { usGaap :=
      [("NetIncomeLoss", ⟨[("USD",
        [{ val := .num 1000, endDate := some "2024-09-30",
           startDate := none, fy := some 2024, fp := some "FY",
           form := some "10-K", filed := none, accn := none },
         { val := .num 900, endDate := some "2023-09-30",
           startDate := none, fy := some 2023, fp := some "FY",
           form := some "10-K", filed := none, accn := none }])]⟩)],
    dei := [] }

/-- A taxonomy resolving `cost_of_revenue` (a negated key) to 500 for
fiscal 2024. -/
def c10Payload : PayloadFacts :=
  { usGaap :=
      [("CostOfGoodsAndServicesSold", ⟨[("USD",
        [{ val := .num 500, endDate := some "2024-09-30",
           startDate := some "2023-10-01", fy := some 2024,
           fp := some "FY", form := some "10-K", filed := none,
           accn := none }])]⟩)],
    dei := [] }

/-- The income statement assembled from `c10Payload`. -/
def c10Stmt : FinancialStatement :=
  extractIncomeStatement (indexFacts c10Payload) (rataDie 2024 9 30)
    (rataDie 2023 10 1) 2024 "FY" "10-K"

/-- The line item `c10Stmt` holds under `cost_of_revenue`. -/
def c10ResolvedItem : LineItem :=
  { label := "Cost of Revenue", xbrlTag := "CostOfGoodsAndServicesSold",
    value := some 500, periodEnd := rataDie 2024 9 30,
    periodStart := some (rataDie 2023 10 1), isNegated := true }

/-- The two facts of `c2Payload`, in payload order. -/
def c2FactA : Fact := mkFact "USD" (mkObs (.num 1) (some "2023-01-01") none none)

def c2FactB : Fact := mkFact "USD" (mkObs (.num 2) (some "2024-01-01") none none)

/-- The target+6-days fact of `c4Payload`, on its own. -/
def c4FarFact : Fact := mkFact "USD" (mkObs (.num 66) (some "2024-07-06") none none)

/-- A fact on a form the filter of the §8 scenario excludes. -/
def c9OtherFormFact : Fact :=
  { value := .num 555, endDate := some "2024-09-28", startDate := none,
    fy := none, fp := none, form := some "10-Q", filed := none,
    accn := none, frame := none, unit := "USD" }

/-- A fact may be discarded for an unparseable date or an unconvertible
value. -/
def malformedFact (f : Fact) : Prop :=
  parseDate f.endDate = none ∨ f.value.toFloat = none

/-! ## Claim theorems -/

/-- C1: the resolver returns the value of the first candidate (in list
order) with any observation passing all active filters — characterized in
full by `tags.find?` over `tagHasMatch` — and priority is absolute: with
candidates `[TagA, TagB]` where `TagA` matches only at target+5 days (the
tolerance boundary, accepted) and `TagB` matches exactly at the target,
`TagA`'s value is returned. -/
theorem candidate_priority_absolute :
    (∀ (fbc : FactsByConcept) (pe : Nat) (ps : Option Nat) (fy : Option Int)
        (fp ft : Option String) (tol : Nat) (tags : List String),
      findFactValue fbc tags pe ps fy fp ft tol =
        match tags.find? (tagHasMatch fbc ft pe ps tol) with
        | none => (none, none)
        | some tag =>
          (findInFacts ft pe ps tol
            (sortFactsDesc ((fbcLookup fbc tag).getD [])), some tag)) ∧
    dayDelta (rataDie 2024 7 5) c1Target = 5 ∧
    findFactValue (indexFacts c1Payload) ["TagA", "TagB"] c1Target none
      none none none 5 = (some 111, some "TagA") :=
  ⟨fun fbc pe ps fy fp ft tol tags =>
    findFactValue_characterization fbc pe ps fy fp ft tol tags,
   by decide, by decide⟩

/-- C2 (counterexample): immediately after `_index_facts` builds the index
from `c2Payload` — before any resolver query — the per-concept list is in
raw payload order, period-end ascending, so it is not sorted descending. -/
theorem index_unsorted_after_build :
    c2IndexList = [c2FactA, c2FactB] ∧
    parseDate c2FactA.endDate = some (rataDie 2023 1 1) ∧
    parseDate c2FactB.endDate = some (rataDie 2024 1 1) ∧
    rataDie 2023 1 1 < rataDie 2024 1 1 ∧
    ¬ List.Sorted factGe c2IndexList := by
  refine ⟨by decide, by decide, by decide, by decide, ?_⟩
  intro h
  have hc : c2IndexList = [c2FactA, c2FactB] := by decide
  rw [hc] at h
  have h1 := (List.pairwise_cons.mp h).1 c2FactB (List.mem_cons_self _ _)
  exact h1 (String.lt_iff_toList_lt.mpr (by decide))

/-- C2 (amended): the per-concept list is not sorted at build; instead the
resolver sorts each candidate's list by the raw period-end string,
descending, on every query — the iterated list is a sorted permutation of
the indexed list — as the unsorted `c2IndexList` demonstrates after its
per-query sort. -/
theorem index_sorted_per_query :
    (∀ fs : List Fact,
      List.Sorted factGe (sortFactsDesc fs) ∧ (sortFactsDesc fs).Perm fs) ∧
    (sortFactsDesc c2IndexList).map Fact.endDate =
      [some "2024-01-01", some "2023-01-01"] :=
  ⟨fun fs => ⟨sortFactsDesc_sorted fs, sortFactsDesc_perm fs⟩, by decide⟩

/-- C3 (counterexample): for the key `revenue` holding raw value
12,345,000, `to_dict` surfaces 12,345,000 while the export surface writes
12,345 — the two surfaces differ. -/
theorem to_dict_export_surfaces_differ :
    liLookup c3Stmt.lineItems "revenue" = some c3Item ∧
    qdLookup c3Stmt.toDict "revenue" = some (some 12345000) ∧
    exportScaledValue "revenue" c3Item = some 12345 ∧
    (12345000 : ℚ) ≠ 12345 := by
  refine ⟨by decide, by decide, ?_, by norm_num⟩
  have h1 : strContains (strToLower "revenue") "eps" = false := by decide
  rw [exportScaledValue_eq, h1]
  have h3 : c3Item.displayValue = some 12345000 := by decide
  rw [h3]; norm_num

/-- C3 (amended): `to_dict` applies the negation flip only (values stay in
raw units), while the export surface applies negation and then divides
every non-EPS value by 1,000; the two surfaces agree exactly on EPS keys
and differ by the factor 1,000 elsewhere. -/
theorem to_dict_negation_only_export_scales :
    ∀ (st : FinancialStatement) (key : String) (item : LineItem),
      liLookup st.lineItems key = some item →
      qdLookup st.toDict key = some item.displayValue ∧
      exportScaledValue key item =
        (if strContains (strToLower key) "eps" then item.displayValue
         else item.displayValue.map (fun dv => dv / 1000)) := by
  intro st key item h
  refine ⟨?_, exportScaledValue_eq key item⟩
  rw [qdLookup_toDict, h]
  rfl

/-- Witness for the amended C3 theorem at `c3Stmt` / `revenue`. -/
theorem to_dict_negation_only_export_scales_witness :
    qdLookup c3Stmt.toDict "revenue" = some c3Item.displayValue ∧
    exportScaledValue "revenue" c3Item =
      (if strContains (strToLower "revenue") "eps" then c3Item.displayValue
       else c3Item.displayValue.map (fun dv => dv / 1000)) :=
  to_dict_negation_only_export_scales c3Stmt "revenue" c3Item (by decide)

/-- C4: an observation 4 days from the target is accepted and one 6 days
away is rejected (tolerance 5); rejecting an observation for exceeding
tolerance skips only that observation, and the search continues through
the rest of the candidate's list. -/
theorem tolerance_skips_single_observation :
    (∀ (ft : Option String) (pe : Nat) (ps : Option Nat) (tol : Nat)
        (f : Fact) (rest : List Fact) (fe : Nat),
      parseDate f.endDate = some fe → tol < dayDelta fe pe →
      findInFacts ft pe ps tol (f :: rest) =
        findInFacts ft pe ps tol rest) ∧
    dayDelta (rataDie 2024 6 26) c4Target = 4 ∧
    dayDelta (rataDie 2024 7 6) c4Target = 6 ∧
    findFactValue (indexFacts c4Payload) ["TagC"] c4Target none none none
      none 5 = (some 44, some "TagC") ∧
    findFactValue (indexFacts c4PayloadOnlyFar) ["TagC"] c4Target none none
      none none 5 = (none, none) := by
  refine ⟨?_, by decide, by decide, by decide, by decide⟩
  intro ft pe ps tol f rest fe hp ht
  refine findInFacts_skip ?_ rest
  simp [acceptableFact, passesEnd, hp, Nat.not_le.mpr ht]

/-- Witness for C4's universal part: the target+6-days fact is skipped. -/
theorem tolerance_skips_single_observation_witness :
    findInFacts none c4Target none 5 [c4FarFact] =
      findInFacts none c4Target none 5 [] :=
  tolerance_skips_single_observation.1 none c4Target none 5 c4FarFact []
    (rataDie 2024 7 6) (by decide) (by decide)

/-- C5: for every key whose resolution is empty, the three statement
assemblers leave the key absent from the line-item mapping, and every item
that is present carries a found value — never a null sentinel. -/
theorem unresolved_items_absent :
    ∀ (fbc : FactsByConcept) (pe ps : Nat) (fy : Int) (fp ftype key : String),
      (((liLookup (extractIncomeStatement fbc pe ps fy fp
            ftype).lineItems key).all fun it => it.value.isSome) = true ∧
        ((∀ cands, (key, cands) ∈ INCOME_STATEMENT_TAGS →
            (findFactValue fbc cands pe (some ps) (some fy) (some fp)
              (some ftype) 5).1 = none) →
          liLookup (extractIncomeStatement fbc pe ps fy fp
            ftype).lineItems key = none)) ∧
      (((liLookup (extractBalanceSheet fbc pe fy fp
            ftype).lineItems key).all fun it => it.value.isSome) = true ∧
        ((∀ cands, (key, cands) ∈ BALANCE_SHEET_TAGS →
            (findFactValue fbc cands pe none (some fy) (some fp)
              (some ftype) 5).1 = none) →
          liLookup (extractBalanceSheet fbc pe fy fp
            ftype).lineItems key = none)) ∧
      (((liLookup (extractCashFlow fbc pe ps fy fp
            ftype).lineItems key).all fun it => it.value.isSome) = true ∧
        ((∀ cands, (key, cands) ∈ CASH_FLOW_TAGS →
            (findFactValue fbc cands pe (some ps) (some fy) (some fp)
              (some ftype) 5).1 = none) →
          liLookup (extractCashFlow fbc pe ps fy fp
            ftype).lineItems key = none)) := by
  intro fbc pe ps fy fp ftype key
  exact ⟨⟨extractStatementCore_all_values fbc pe (some ps) fy fp ftype
      .incomeStatement INCOME_STATEMENT_TAGS key,
    fun h => extractStatementCore_unresolved_absent fbc pe (some ps) fy fp
      ftype .incomeStatement INCOME_STATEMENT_TAGS key h⟩,
   ⟨extractStatementCore_all_values fbc pe none fy fp ftype
      .balanceSheet BALANCE_SHEET_TAGS key,
    fun h => extractStatementCore_unresolved_absent fbc pe none fy fp
      ftype .balanceSheet BALANCE_SHEET_TAGS key h⟩,
   ⟨extractStatementCore_all_values fbc pe (some ps) fy fp ftype
      .cashFlow CASH_FLOW_TAGS key,
    fun h => extractStatementCore_unresolved_absent fbc pe (some ps) fy fp
      ftype .cashFlow CASH_FLOW_TAGS key h⟩⟩

/-- Witness for C5 on an empty index: nothing resolves, so the keys are
absent from all three statements. -/
theorem unresolved_items_absent_witness :
    liLookup (extractIncomeStatement [] (rataDie 2024 9 30)
      (rataDie 2023 10 1) 2024 "FY" "10-K").lineItems "revenue" = none ∧
    liLookup (extractBalanceSheet [] (rataDie 2024 9 30)
      2024 "FY" "10-K").lineItems "total_assets" = none ∧
    liLookup (extractCashFlow [] (rataDie 2024 9 30)
      (rataDie 2023 10 1) 2024 "FY" "10-K").lineItems
      "net_change_in_cash" = none :=
  ⟨((unresolved_items_absent [] (rataDie 2024 9 30) (rataDie 2023 10 1)
      2024 "FY" "10-K" "revenue").1).2
    (fun cands _ => by rw [findFactValue_nil_fbc]),
   ((unresolved_items_absent [] (rataDie 2024 9 30) (rataDie 2023 10 1)
      2024 "FY" "10-K" "total_assets").2.1).2
    (fun cands _ => by rw [findFactValue_nil_fbc]),
   ((unresolved_items_absent [] (rataDie 2024 9 30) (rataDie 2023 10 1)
      2024 "FY" "10-K" "net_change_in_cash").2.2).2
    (fun cands _ => by rw [findFactValue_nil_fbc])⟩

/-- C6: with a target period start supplied, an observation whose parsed
start date misses the target start by more than the tolerance is skipped,
while an observation with no start date at all is accepted whenever its
form and period-end pass the other filters. -/
theorem start_date_filter :
    (∀ (ft : Option String) (pe psv tol : Nat) (f : Fact)
        (rest : List Fact) (fs : Nat),
      parseDate f.startDate = some fs → tol < dayDelta fs psv →
      findInFacts ft pe (some psv) tol (f :: rest) =
        findInFacts ft pe (some psv) tol rest) ∧
    (∀ (ft : Option String) (pe psv tol : Nat) (f : Fact)
        (rest : List Fact) (fe : Nat) (v : ℚ),
      formSkip ft f = false → parseDate f.endDate = some fe →
      dayDelta fe pe ≤ tol → parseDate f.startDate = none →
      f.value.toFloat = some v →
      findInFacts ft pe (some psv) tol (f :: rest) = some v) := by
  constructor
  · intro ft pe psv tol f rest fs hs ht
    refine findInFacts_skip ?_ rest
    simp [acceptableFact, startSkip, hs, ht]
  · intro ft pe psv tol f rest fe v hform hend hd hstart hv
    have hacc : acceptableFact ft pe (some psv) tol f = true := by
      simp [acceptableFact, passesEnd, startSkip, hform, hend, hd, hstart, hv]
    rw [findInFacts_hit hacc, hv]

/-- Witness for C6: the out-of-tolerance start is skipped; the startless
observation resolves. -/
theorem start_date_filter_witness :
    findInFacts none (rataDie 2024 6 30) (some (rataDie 2023 10 1)) 5
      [c6RejFact] =
      findInFacts none (rataDie 2024 6 30) (some (rataDie 2023 10 1)) 5 [] ∧
    findInFacts none (rataDie 2024 6 30) (some (rataDie 2023 10 1)) 5
      [c6AccFact] = some 5 :=
  ⟨start_date_filter.1 none (rataDie 2024 6 30) (rataDie 2023 10 1) 5
      c6RejFact [] (rataDie 2023 1 1) (by decide) (by decide),
   start_date_filter.2 none (rataDie 2024 6 30) (rataDie 2023 10 1) 5
      c6AccFact [] (rataDie 2024 6 30) 5 (by decide) (by decide)
      (by decide) (by decide) (by decide)⟩

/-- C7: a single observation with an unparseable date or an unconvertible
value is discarded individually: it never passes the filters, its presence
anywhere in the iterated list — or at the head of the concept's list
before the per-query sort — leaves resolution unchanged, resolution reads
only the consulted concepts' lists, and indexing one concept leaves every
other concept's entry untouched. -/
theorem malformed_observation_isolated :
    (∀ (ft : Option String) (pe : Nat) (ps : Option Nat) (tol : Nat)
        (m : Fact), malformedFact m →
      acceptableFact ft pe ps tol m = false) ∧
    (∀ (ft : Option String) (pe : Nat) (ps : Option Nat) (tol : Nat)
        (m : Fact) (l₁ l₂ : List Fact), malformedFact m →
      findInFacts ft pe ps tol (l₁ ++ m :: l₂) =
        findInFacts ft pe ps tol (l₁ ++ l₂)) ∧
    (∀ (ft : Option String) (pe : Nat) (ps : Option Nat) (tol : Nat)
        (m : Fact) (facts : List Fact), malformedFact m →
      findInFacts ft pe ps tol (sortFactsDesc (m :: facts)) =
        findInFacts ft pe ps tol (sortFactsDesc facts)) ∧
    (∀ (fbc fbc' : FactsByConcept) (pe : Nat) (ps : Option Nat)
        (fy : Option Int) (fp ft : Option String) (tol : Nat)
        (tags : List String),
      (∀ tag ∈ tags, fbcLookup fbc tag = fbcLookup fbc' tag) →
      findFactValue fbc tags pe ps fy fp ft tol =
        findFactValue fbc' tags pe ps fy fp ft tol) ∧
    (∀ (fbc : FactsByConcept) (c : String) (fs : List Fact) (c' : String),
      c' ≠ c →
      fbcLookup (appendFacts fbc c fs) c' = fbcLookup fbc c') := by
  have hacc : ∀ (ft : Option String) (pe : Nat) (ps : Option Nat)
      (tol : Nat) (m : Fact), malformedFact m →
      acceptableFact ft pe ps tol m = false := by
    intro ft pe ps tol m hm
    rcases hm with hd | hv
    · simp [acceptableFact, passesEnd, hd]
    · simp [acceptableFact, hv]
  refine ⟨hacc, ?_, ?_, ?_, ?_⟩
  · intro ft pe ps tol m l₁ l₂ hm
    exact findInFacts_append_skip (hacc ft pe ps tol m hm) l₁ l₂
  · intro ft pe ps tol m facts hm
    have : sortFactsDesc (m :: facts) =
        List.orderedInsert factGe m (sortFactsDesc facts) := rfl
    rw [this, findInFacts_orderedInsert_skip (hacc ft pe ps tol m hm)]
  · intro fbc fbc' pe ps fy fp ft tol tags
    induction tags with
    | nil => intro _; rfl
    | cons tag rest ih =>
      intro h
      have htag := h tag (List.mem_cons_self tag rest)
      have hrest := ih fun t ht => h t (List.mem_cons_of_mem tag ht)
      rw [findFactValue, findFactValue, htag, hrest]
  · intro fbc c fs c' hne
    induction fbc with
    | nil => simp [appendFacts, fbcLookup, Ne.symm hne]
    | cons hd rest ih =>
      by_cases h0 : hd.1 = c
      · simp [appendFacts, fbcLookup, h0, Ne.symm hne]
      · by_cases h1 : hd.1 = c'
        · simp [appendFacts, fbcLookup, h0, h1, hne]
        · simp [appendFacts, fbcLookup, h0, h1, ih]

/-- Witness for C7: a fact with an unparseable date inserted after a good
fact, and a fact with an unconvertible value prepended before the
per-query sort, both leave the search unchanged. -/
theorem malformed_observation_isolated_witness :
    findInFacts none (rataDie 2024 6 30) none 5
      ([c7GoodFact] ++ c7BadDateFact :: []) =
      findInFacts none (rataDie 2024 6 30) none 5 ([c7GoodFact] ++ []) ∧
    findInFacts none (rataDie 2024 6 30) none 5
      (sortFactsDesc (c7BadValFact :: [c7GoodFact])) =
      findInFacts none (rataDie 2024 6 30) none 5
        (sortFactsDesc [c7GoodFact]) :=
  ⟨malformed_observation_isolated.2.1 none (rataDie 2024 6 30) none 5
      c7BadDateFact [c7GoodFact] [] (Or.inl (by decide)),
   malformed_observation_isolated.2.2.1 none (rataDie 2024 6 30) none 5
      c7BadValFact [c7GoodFact] (Or.inr (by decide))⟩

/-- C8: negation flips the sign exactly for keys in the static
negated-item set (cost_of_revenue 500 ↦ −500; revenue 500 ↦ 500), and
export scaling divides monetary and share-count values by 1,000
(12,345,000 ↦ 12,345; 1,000,000 ↦ 1,000) while EPS values pass through
(3.21 ↦ 3.21). -/
theorem negation_and_scaling_values :
    c8CostItem.displayValue = some (-500) ∧
    c8RevItem.displayValue = some 500 ∧
    exportScaledValue "revenue" c8MoneyItem = some 12345 ∧
    c8EpsItem.displayValue = some (321 / 100) ∧
    exportScaledValue "eps_basic" c8EpsItem = some (321 / 100) ∧
    exportScaledValue "shares_basic" c8SharesItem = some 1000 := by
  refine ⟨by decide, by decide, ?_, ?_, ?_, ?_⟩
  · have h1 : strContains (strToLower "revenue") "eps" = false := by decide
    rw [exportScaledValue_eq, h1]
    have h3 : c8MoneyItem.displayValue = some 12345000 := by decide
    rw [h3]; norm_num
  · simp [c8EpsItem, LineItem.displayValue, NEGATED_ITEMS]
  · have h1 : strContains (strToLower "eps_basic") "eps" = true := by decide
    rw [exportScaledValue_eq, h1]
    simp [c8EpsItem, LineItem.displayValue, NEGATED_ITEMS]
  · have h1 : strContains (strToLower "shares_basic") "eps" = false := by
      decide
    rw [exportScaledValue_eq, h1]
    have h3 : c8SharesItem.displayValue = some 1000000 := by decide
    rw [h3]; norm_num

/-- C9: with a required form type, every observation on another form is
skipped; and the §8 end-to-end scenario resolves `NetIncomeLoss` to 1000
via the 2024-09-30 observation, 2 days from the 2024-09-28 target. -/
theorem form_filter_and_scenario :
    (∀ (ftv : String) (pe : Nat) (ps : Option Nat) (tol : Nat) (f : Fact)
        (rest : List Fact),
      f.form ≠ some ftv →
      findInFacts (some ftv) pe ps tol (f :: rest) =
        findInFacts (some ftv) pe ps tol rest) ∧
    dayDelta (rataDie 2024 9 30) (rataDie 2024 9 28) = 2 ∧
    findFactValue (indexFacts c9Payload) ["NetIncomeLoss"]
      (rataDie 2024 9 28) none none none (some "10-K") 5 =
      (some 1000, some "NetIncomeLoss") := by
  refine ⟨?_, by decide, by decide⟩
  intro ftv pe ps tol f rest h
  refine findInFacts_skip ?_ rest
  simp [acceptableFact, formSkip, h]

/-- Witness for C9's universal part: a 10-Q observation at the exact
target date is skipped under the 10-K filter. -/
theorem form_filter_and_scenario_witness :
    findInFacts (some "10-K") (rataDie 2024 9 28) none 5
      [c9OtherFormFact] =
      findInFacts (some "10-K") (rataDie 2024 9 28) none 5 [] :=
  form_filter_and_scenario.1 "10-K" (rataDie 2024 9 28) none 5
    c9OtherFormFact [] (by decide)

/-- C10: `get_value` returns the raw resolved value with no negation and
no scaling; for the negated key `cost_of_revenue` resolved end to end to
raw 500, `get_value` gives 500 while `to_dict` gives −500 and the export
surface writes −0.5 — differing in sign and scale. -/
theorem get_value_returns_raw :
    (∀ (st : FinancialStatement) (key : String) (item : LineItem),
      liLookup st.lineItems key = some item →
      st.getValue key = item.value) ∧
    liLookup c10Stmt.lineItems "cost_of_revenue" = some c10ResolvedItem ∧
    c10ResolvedItem.isNegated = true ∧
    c10Stmt.getValue "cost_of_revenue" = some 500 ∧
    qdLookup c10Stmt.toDict "cost_of_revenue" = some (some (-500)) ∧
    exportScaledValue "cost_of_revenue" c10ResolvedItem = some (-(1 / 2)) ∧
    (500 : ℚ) ≠ -(1 / 2) ∧ (0 : ℚ) < 500 ∧ -(1 / 2) < (0 : ℚ) := by
  refine ⟨?_, by decide, by decide, by decide, by decide, ?_,
    by norm_num, by norm_num, by norm_num⟩
  · intro st key item h
    simp [FinancialStatement.getValue, h]
  · have h1 : strContains (strToLower "cost_of_revenue") "eps" = false := by
      decide
    rw [exportScaledValue_eq, h1]
    have h3 : c10ResolvedItem.displayValue = some (-500) := by decide
    rw [h3]; norm_num

/-- Witness for C10's universal part at the end-to-end statement. -/
theorem get_value_returns_raw_witness :
    c10Stmt.getValue "cost_of_revenue" = c10ResolvedItem.value :=
  get_value_returns_raw.1 c10Stmt "cost_of_revenue" c10ResolvedItem
    (by decide)

end SecParser
